import Mathlib

/-
Verification of the ruma-client core: a shallow embedding of src/lib.rs and
src/session.rs (the `Client` dispatcher, the auth flows and the sync stream),
with the repository's `api` and `error` modules — which are declared in lib.rs
but absent from the source tree — modelled from the specification where needed.
-/

namespace RumaClient

/-- Modelled from the spec: the crate's `error` module is not in the source
tree; the variants follow the error taxonomy of spec section 7, each carrying
its underlying cause as an opaque string. Only `authenticationRequired` is
constructed by lib.rs itself. -/
inductive Error where
  | authenticationRequired
  | urlParse (cause : String)
  | uriParse (cause : String)
  | serialize (cause : String)
  | transport (cause : String)
  | endpointDecode (cause : String)
  | tlsInit (cause : String)
deriving DecidableEq, Repr

/-- Matrix user identifier (from the external ruma-identifiers crate): a
structured local-part plus homeserver hostname, compared by full tuple. -/
structure UserId where
  localpart : String
  hostname : String
deriving DecidableEq, Repr

/-- Embeds src/session.rs: a user session with access token, user id and
device id. -/
structure Session where
  access_token : String
  user_id : UserId
  device_id : String
deriving DecidableEq, Repr

/-- A parsed URL (external url crate) as used by lib.rs: scheme, host,
optional port, path, and the query string parsed as its ordered list of
key-value pairs. -/
structure Url where
  scheme : String
  host : String
  port : Option Nat
  path : String
  query : List (String × String)
deriving DecidableEq, Repr

/-- Embeds `url.set_path(uri.path()); url.set_query(uri.query())` from
Client::request: the path and the whole query are overwritten from the
endpoint-generated request, everything else of the URL is kept. -/
def setPathQuery (u : Url) (path : String) (query : List (String × String)) : Url :=
  { u with path := path, query := query }

/-- Embeds `url.query_pairs_mut().append_pair(k, v)` from Client::request:
the url crate appends the pair at the end of the existing query, never
replacing or removing pairs already present. -/
def appendPair (u : Url) (k v : String) : Url :=
  { u with query := u.query ++ [(k, v)] }

/-- Number of query pairs whose key is access_token. -/
def accessTokenCount (q : List (String × String)) : Nat :=
  q.countP fun p => p.1 == "access_token"

/-- The endpoint-generated raw HTTP request (hyper::Request as produced by an
endpoint's TryInto conversion): method, target path and query, and body. The
dispatcher replaces its URI wholesale before submission, so path and query
are the only URI parts it contributes. -/
structure HttpRequest where
  method : String
  path : String
  query : List (String × String)
  body : String
deriving DecidableEq, Repr

/-- A raw HTTP response from the transport, kept abstract: status and body. -/
structure HttpResponse where
  status : Nat
  body : String
deriving DecidableEq, Repr

/-- The request handed to the transport by Client::request: the original
endpoint-generated request with its URI replaced by the rebased URL
(`*hyper_request.uri_mut() = uri`). -/
structure SubmittedRequest where
  uri : Url
  method : String
  body : String
deriving DecidableEq, Repr

/-- The endpoint contract (the external ruma_api::Endpoint trait as consumed
by lib.rs): the `requires_authentication` metadata bit, the fallible
conversion of a typed request into a raw HTTP request (`request.try_into()`),
and the fallible conversion of a raw HTTP response into a typed response
(`E::Response::future_from`). -/
structure Endpoint (Req Resp : Type) where
  requires_authentication : Bool
  tryInto : Req → Except Error HttpRequest
  futureFrom : HttpResponse → Except Error Resp

/-- Embeds the `Client` struct of lib.rs. The hyper transport handle is kept
abstract as a value of an arbitrary type `C`; its request behaviour is
supplied separately as a transport oracle. -/
structure Client (C : Type) where
  hyper : C
  homeserver_url : Url
  session : Option Session

/-- Embeds the authentication block of Client::request (lines 256-263):
if `E::METADATA.requires_authentication`, append the access_token pair for
the snapshotted session, or fail with AuthenticationRequired when there is
no session; otherwise leave the URL untouched. -/
def authDecorate (requiresAuth : Bool) (session_opt : Option Session) (url : Url) :
    Except Error Url :=
  if requiresAuth then
    match session_opt with
    | some session => Except.ok (appendPair url "access_token" session.access_token)
    | none => Except.error Error.authenticationRequired
  else
    Except.ok url

/-- The outcome of one call to Client::request: the typed result, the list of
HTTP exchanges actually submitted to the transport (in order), and the state
of the Client afterwards. -/
structure DispatchResult (C Resp : Type) where
  result : Except Error Resp
  submitted : List SubmittedRequest
  client : Client C

/-- Embeds Client::request (lib.rs lines 234-278). The source clones the
session, the homeserver URL and the hyper handle up front (pure reads of
`self`), converts the typed request (`try_into`, whose failure short-circuits
before the rebasing closure runs), overwrites the cloned URL's path and query
from the endpoint-generated request, runs the authentication block, rebuilds
the URI and submits exactly one exchange via the transport, finally handing
the raw response to the endpoint's response conversion. `Uri::from_str` on
the rebased URL is modelled as total: the structured `Url` always renders to
a parseable URI string. The transport oracle takes the cloned hyper handle
and the submitted request. -/
def Client.request {C Req Resp : Type} (self : Client C)
    (transport : C → SubmittedRequest → Except Error HttpResponse)
    (E : Endpoint Req Resp) (req : Req) : DispatchResult C Resp :=
  match E.tryInto req with
  | Except.error e => ⟨Except.error e, [], self⟩
  | Except.ok hyper_request =>
    match authDecorate E.requires_authentication self.session
        (setPathQuery self.homeserver_url hyper_request.path hyper_request.query) with
    | Except.error e => ⟨Except.error e, [], self⟩
    | Except.ok url =>
      let sub : SubmittedRequest := ⟨url, hyper_request.method, hyper_request.body⟩
      match transport self.hyper sub with
      | Except.error e => ⟨Except.error e, [sub], self⟩
      | Except.ok hyper_response => ⟨E.futureFrom hyper_response, [sub], self⟩

/-- Modelled from the spec: the api::r0::sync::sync_events module is not in
the source tree. A sync filter is an opaque value reused verbatim on every
request (spec 4.4). -/
structure Filter where
  raw : String
deriving DecidableEq, Repr

/-- Modelled from the spec: the SetPresence enum of the sync_events module.
Only the Offline variant is observable from lib.rs and the spec (an explicit
offline presence so polling does not mark the user online). -/
inductive SetPresence where
  | offline
deriving DecidableEq, Repr

/-- Modelled from the spec: the sync_events request, with exactly the fields
named at the lib.rs call site: filter, since, full_state, set_presence and
timeout. -/
structure SyncRequest where
  filter : Option Filter
  since : Option String
  full_state : Option Bool
  set_presence : Option SetPresence
  timeout : Option Nat
deriving DecidableEq, Repr

/-- Modelled from the spec: of the sync_events response only the `next_batch`
cursor is read by lib.rs; the remaining payload is kept as an opaque body. -/
structure SyncResponse where
  next_batch : String
  body : String
deriving DecidableEq, Repr

/-- Embeds the request literal built inside Client::sync: filter and
set_presence are passed through, since is the threaded cursor, full_state and
timeout are always absent. -/
def mkSyncRequest (filter : Option Filter) (sp : Option SetPresence)
    (since : Option String) : SyncRequest :=
  ⟨filter, since, none, sp, none⟩

/-- Embeds the presence mapping at the top of Client::sync (lines 206-210):
`set_presence = true` becomes no override, `set_presence = false` becomes an
explicit Offline. -/
def presenceArg (set_presence : Bool) : Option SetPresence :=
  if set_presence then none else some SetPresence.offline

/-- State of the futures 0.1 `stream::unfold` combinator used by Client::sync:
either ready with the threaded `since` cursor (the unfold seed), or empty.
The unfold implementation takes the state out (replacing it with empty) before
polling; it stores a state back only when the inner future succeeds, so after
an error or completion the stream stays empty. -/
inductive UnfoldState where
  | ready (since : Option String)
  | empty
deriving DecidableEq, Repr

/-- Outcome of polling the sync stream once: a yielded response, a surfaced
error, or the panic that futures 0.1 `Unfold::poll` raises when polled after
it already returned an error or completed. -/
inductive PullOutcome where
  | item (res : SyncResponse)
  | error (e : Error)
  | panicked
deriving DecidableEq, Repr

/-- Embeds one poll of the stream returned by Client::sync (lines 212-230)
under futures 0.1 unfold semantics. From a ready state the closure builds the
sync_events request from the current cursor and dispatches it through `call`
(abstracting `sync_events::call` on the cloned client); on success the
response is yielded and the state advances to `Some(next_batch)`, on error the
error is surfaced and the consumed state is not restored. From the empty
state no request is issued and the poll panics. The first component is the
request issued by this pull, if any. -/
def syncPoll (call : SyncRequest → Except Error SyncResponse)
    (filter : Option Filter) (sp : Option SetPresence) :
    UnfoldState → Option SyncRequest × PullOutcome × UnfoldState
  | UnfoldState.ready since =>
    let req := mkSyncRequest filter sp since
    (some req,
      match call req with
      | Except.ok res => (PullOutcome.item res, UnfoldState.ready (some res.next_batch))
      | Except.error e => (PullOutcome.error e, UnfoldState.empty))
  | UnfoldState.empty => (none, PullOutcome.panicked, UnfoldState.empty)

/-- The unfold state before pull n of a sync stream seeded with the
caller-provided initial cursor. -/
def syncStateAt (call : SyncRequest → Except Error SyncResponse)
    (filter : Option Filter) (sp : Option SetPresence) (init : Option String) :
    Nat → UnfoldState
  | 0 => UnfoldState.ready init
  | n + 1 => (syncPoll call filter sp (syncStateAt call filter sp init n)).2.2

/-- Pull n of a sync stream: the request it issues (if any), its outcome, and
the state it leaves behind. -/
def syncPullAt (call : SyncRequest → Except Error SyncResponse)
    (filter : Option Filter) (sp : Option SetPresence) (init : Option String)
    (n : Nat) : Option SyncRequest × PullOutcome × UnfoldState :=
  syncPoll call filter sp (syncStateAt call filter sp init n)

/-- Modelled from the spec: the api::r0::session::login module is not in the
source tree; the request fields are exactly those of the literal built in
Client::log_in. -/
inductive LoginType where
  | password
deriving DecidableEq, Repr

/-- Modelled from the spec: the login request, with the fields of the
Client::log_in call site. -/
structure LoginRequest where
  address : Option String
  login_type : LoginType
  medium : Option String
  device_id : Option String
  password : String
  user : String
deriving DecidableEq, Repr

/-- Modelled from the spec: the login response triple read by Client::log_in. -/
structure LoginResponse where
  access_token : String
  user_id : UserId
  device_id : String
deriving DecidableEq, Repr

/-- Modelled from the spec: the registration kind of the api::r0::account
register module, as used at the lib.rs call sites. -/
inductive RegistrationKind where
  | guest
  | user
deriving DecidableEq, Repr

/-- Modelled from the spec: the register request, with the fields of the
Client::register_guest and Client::register_user call sites. -/
structure RegisterRequest where
  auth : Option String
  bind_email : Option Bool
  device_id : Option String
  initial_device_display_name : Option String
  kind : Option RegistrationKind
  password : Option String
  username : Option String
deriving DecidableEq, Repr

/-- Modelled from the spec: the register response triple read by the
registration flows. -/
structure RegisterResponse where
  access_token : String
  user_id : UserId
  device_id : String
deriving DecidableEq, Repr

/-- Result of an auth flow: Ok (the source returns the borrowed client) or the
propagated error, together with the state of the Client afterwards. -/
structure AuthStep (C : Type) where
  result : Except Error Unit
  client : Client C

/-- Embeds Client::log_in (lib.rs lines 92-120): build the login request
literal, dispatch it via `call` (abstracting login::call, driven to
completion on the current thread), map a successful response into a Session;
`self.session = block_on_all(fut)?` writes the session only on success and
propagates the error before any write otherwise. -/
def Client.log_in {C : Type} (self : Client C)
    (call : Client C → LoginRequest → Except Error LoginResponse)
    (user : String) (password : String) (device_id : Option String) : AuthStep C :=
  let fut := (call self ⟨none, LoginType.password, none, device_id, password, user⟩).map
    fun response => some (Session.mk response.access_token response.user_id response.device_id)
  match fut with
  | Except.ok s => ⟨Except.ok (), { self with session := s }⟩
  | Except.error e => ⟨Except.error e, self⟩

/-- Embeds Client::register_guest (lib.rs lines 125-151): same pattern as
log_in with the guest registration request literal. -/
def Client.register_guest {C : Type} (self : Client C)
    (call : Client C → RegisterRequest → Except Error RegisterResponse) : AuthStep C :=
  let fut := (call self
      ⟨none, none, none, none, some RegistrationKind.guest, none, none⟩).map
    fun response => some (Session.mk response.access_token response.user_id response.device_id)
  match fut with
  | Except.ok s => ⟨Except.ok (), { self with session := s }⟩
  | Except.error e => ⟨Except.error e, self⟩

/-- Embeds Client::register_user (lib.rs lines 161-191): same pattern as
log_in with the user registration request literal. -/
def Client.register_user {C : Type} (self : Client C)
    (call : Client C → RegisterRequest → Except Error RegisterResponse)
    (username : Option String) (password : String) : AuthStep C :=
  let fut := (call self
      ⟨none, none, none, none, some RegistrationKind.user, some password, username⟩).map
    fun response => some (Session.mk response.access_token response.user_id response.device_id)
  match fut with
  | Except.ok s => ⟨Except.ok (), { self with session := s }⟩
  | Except.error e => ⟨Except.error e, self⟩

deriving instance DecidableEq for Except

/-
Concrete fixtures used by witnesses and counterexamples.
-/

/-- A homeserver URL with a base path and a query of its own, so theorems can
observe that neither survives rebasing. -/
def homeUrl : Url := ⟨"https", "matrix.org", some 8448, "/base", [("hs", "q")]⟩

/-- A concrete user id. -/
def uidAlice : UserId := ⟨"alice", "matrix.org"⟩

/-- A concrete session with access token T. -/
def sessT : Session := ⟨"T", uidAlice, "D"⟩

/-- A client with no session. -/
def clientNoSession : Client Unit := ⟨(), homeUrl, none⟩

/-- A client holding session sessT. -/
def clientT : Client Unit := ⟨(), homeUrl, some sessT⟩

/-- A transport that answers every exchange with status 200. -/
def okTransport : Unit → SubmittedRequest → Except Error HttpResponse :=
  fun _ _ => Except.ok ⟨200, ""⟩

/-- A transport whose every exchange fails. -/
def errTransport : Unit → SubmittedRequest → Except Error HttpResponse :=
  fun _ _ => Except.error (Error.transport "io")

/-- An authenticated endpoint with a token-free query. -/
def epAuth : Endpoint Unit Nat :=
  ⟨true, fun _ => Except.ok ⟨"GET", "/r0/sync", [], ""⟩, fun _ => Except.ok 0⟩

/-- An authenticated endpoint whose generated query already carries an
access_token pair. -/
def epAuthTok : Endpoint Unit Nat :=
  ⟨true, fun _ => Except.ok ⟨"GET", "/r0/sync", [("access_token", "old")], ""⟩,
    fun _ => Except.ok 0⟩

/-- An unauthenticated endpoint. -/
def epNoAuth : Endpoint Unit Nat :=
  ⟨false, fun _ => Except.ok ⟨"GET", "/versions", [("a", "b")], ""⟩, fun _ => Except.ok 0⟩

/-- An authenticated endpoint whose request conversion fails. -/
def epBadSer : Endpoint Unit Nat :=
  ⟨true, fun _ => Except.error (Error.serialize "boom"), fun _ => Except.ok 0⟩

/-
Claims.
-/

/-- C8: dispatch never modifies the Client: whatever the serialization, the
authentication check, and the transport do, the Client after Client::request
is the Client before it; the session in particular is only read (as a
snapshot taken at dispatch start), never written. -/
theorem c8_dispatch_reads_only {C Req Resp : Type} (c : Client C)
    (transport : C → SubmittedRequest → Except Error HttpResponse)
    (E : Endpoint Req Resp) (req : Req) :
    (c.request transport E req).client = c := by
  cases h1 : E.tryInto req with
  | error e => simp [Client.request, h1]
  | ok hr =>
    cases h2 : authDecorate E.requires_authentication c.session
        (setPathQuery c.homeserver_url hr.path hr.query) with
    | error e => simp [Client.request, h1, h2]
    | ok url =>
      cases h3 : transport c.hyper ⟨url, hr.method, hr.body⟩ with
      | error e => simp [Client.request, h1, h2, h3]
      | ok resp => simp [Client.request, h1, h2, h3]

/-- C1 counterexample: an endpoint with requires_authentication true whose
request conversion fails, dispatched by a client without a session, fails
with the Serialize error of the conversion — not with AuthenticationRequired
as the claim demands — while still making zero transport calls. -/
theorem c1_cex :
    epBadSer.requires_authentication = true ∧
    clientNoSession.session = none ∧
    (clientNoSession.request okTransport epBadSer ()).result
      = Except.error (Error.serialize "boom") ∧
    (clientNoSession.request okTransport epBadSer ()).result
      ≠ Except.error Error.authenticationRequired ∧
    (clientNoSession.request okTransport epBadSer ()).submitted = [] := by
  refine ⟨rfl, rfl, rfl, ?_, rfl⟩
  decide

/-- C1 (amended): for every endpoint with requires_authentication true and
every client without a session, dispatch submits nothing to the transport,
and whenever the endpoint's request conversion succeeds the failure is
AuthenticationRequired. (The conversion runs before the authentication
check, so a conversion failure surfaces as its own error instead.) -/
theorem c1_auth_guard {C Req Resp : Type} (c : Client C)
    (transport : C → SubmittedRequest → Except Error HttpResponse)
    (E : Endpoint Req Resp) (req : Req)
    (hA : E.requires_authentication = true) (hS : c.session = none) :
    (c.request transport E req).submitted = [] ∧
    ∀ hr, E.tryInto req = Except.ok hr →
      (c.request transport E req).result = Except.error Error.authenticationRequired := by
  constructor
  · cases h : E.tryInto req with
    | error e => simp [Client.request, h]
    | ok hr => simp [Client.request, h, authDecorate, hA, hS]
  · intro hr hok
    simp [Client.request, hok, authDecorate, hA, hS]

/-- C1 witness: the amended guarantee evaluated on a concrete authenticated
endpoint and a concrete session-less client. -/
theorem c1_auth_guard_witness :
    (clientNoSession.request okTransport epAuth ()).submitted = [] ∧
    ∀ hr, epAuth.tryInto () = Except.ok hr →
      (clientNoSession.request okTransport epAuth ()).result
        = Except.error Error.authenticationRequired :=
  c1_auth_guard clientNoSession okTransport epAuth () rfl rfl

/-- Helper: the authentication block fails only when authentication is
required and no session is present, and then with AuthenticationRequired. -/
theorem authDecorate_error {b : Bool} {s : Option Session} {u : Url} {e : Error}
    (h : authDecorate b s u = Except.error e) :
    b = true ∧ s = none ∧ e = Error.authenticationRequired := by
  unfold authDecorate at h
  cases b with
  | false => simp at h
  | true =>
    cases s with
    | none =>
      simp only [if_true] at h
      exact ⟨rfl, rfl, (Except.error.injEq _ _).mp h.symm⟩
    | some sess => simp at h

/-- Helper: when the authentication block succeeds, the produced URL is the
rebased URL, decorated with the session's access token exactly when
authentication is required. -/
theorem authDecorate_ok {b : Bool} {s : Option Session} {u url : Url}
    (h : authDecorate b s u = Except.ok url) :
    (b = false ∧ url = u) ∨
    (b = true ∧ ∃ sess, s = some sess ∧
      url = appendPair u "access_token" sess.access_token) := by
  unfold authDecorate at h
  cases b with
  | false =>
    simp only [Bool.false_eq_true, if_false] at h
    exact Or.inl ⟨rfl, ((Except.ok.injEq _ _).mp h).symm⟩
  | true =>
    cases s with
    | none => simp at h
    | some sess =>
      simp only [if_true] at h
      exact Or.inr ⟨rfl, sess, rfl, ((Except.ok.injEq _ _).mp h).symm⟩

/-- C9: a call to Client::request submits at most one HTTP exchange to the
transport, and exactly one as soon as the request conversion succeeds and the
authentication check passes; quantifying over every transport oracle —
including failing ones — shows no retry ever occurs. -/
theorem c9_single_attempt {C Req Resp : Type} (c : Client C)
    (transport : C → SubmittedRequest → Except Error HttpResponse)
    (E : Endpoint Req Resp) (req : Req) :
    (c.request transport E req).submitted.length ≤ 1 ∧
    ((∃ hr, E.tryInto req = Except.ok hr) ∧
        (E.requires_authentication = true → c.session ≠ none) →
      (c.request transport E req).submitted.length = 1) := by
  cases h1 : E.tryInto req with
  | error e =>
    refine ⟨by simp [Client.request, h1], ?_⟩
    rintro ⟨⟨hr, hok⟩, -⟩
    exact absurd hok (by simp)
  | ok hr =>
    cases h2 : authDecorate E.requires_authentication c.session
        (setPathQuery c.homeserver_url hr.path hr.query) with
    | error e =>
      refine ⟨by simp [Client.request, h1, h2], ?_⟩
      rintro ⟨-, hS⟩
      obtain ⟨hb, hs, -⟩ := authDecorate_error h2
      exact absurd hs (hS hb)
    | ok url =>
      cases h3 : transport c.hyper ⟨url, hr.method, hr.body⟩ with
      | error e => exact ⟨by simp [Client.request, h1, h2, h3], fun _ => by
          simp [Client.request, h1, h2, h3]⟩
      | ok resp => exact ⟨by simp [Client.request, h1, h2, h3], fun _ => by
          simp [Client.request, h1, h2, h3]⟩

/-- C9 witness: a dispatch whose pre-submission steps succeed against a
failing transport performs exactly one exchange (and no retry). -/
theorem c9_single_attempt_witness :
    (clientT.request errTransport epAuth ()).submitted.length ≤ 1 ∧
    ((∃ hr, epAuth.tryInto () = Except.ok hr) ∧
        (epAuth.requires_authentication = true → clientT.session ≠ none) →
      (clientT.request errTransport epAuth ()).submitted.length = 1) :=
  c9_single_attempt clientT errTransport epAuth ()

/-- C10: for an endpoint that does not require authentication, the stored
session has no influence on dispatch: two clients differing only in their
session submit the same exchanges and produce the same result, and every
submitted URL carries the endpoint-generated query verbatim, with no
access_token pair added. -/
theorem c10_session_noninterference {C Req Resp : Type} (hy : C) (url : Url)
    (s1 s2 : Option Session)
    (transport : C → SubmittedRequest → Except Error HttpResponse)
    (E : Endpoint Req Resp) (req : Req)
    (hA : E.requires_authentication = false) :
    (Client.request ⟨hy, url, s1⟩ transport E req).submitted
      = (Client.request ⟨hy, url, s2⟩ transport E req).submitted ∧
    (Client.request ⟨hy, url, s1⟩ transport E req).result
      = (Client.request ⟨hy, url, s2⟩ transport E req).result ∧
    ∀ sub ∈ (Client.request ⟨hy, url, s1⟩ transport E req).submitted,
      ∃ hr, E.tryInto req = Except.ok hr ∧
        sub.uri = setPathQuery url hr.path hr.query ∧
        sub.uri.query = hr.query := by
  cases h1 : E.tryInto req with
  | error e => simp [Client.request, h1]
  | ok hr =>
    have hd : ∀ s : Option Session,
        authDecorate E.requires_authentication s (setPathQuery url hr.path hr.query)
          = Except.ok (setPathQuery url hr.path hr.query) := by
      intro s
      simp [authDecorate, hA]
    cases h3 : transport hy ⟨setPathQuery url hr.path hr.query, hr.method, hr.body⟩ with
    | error e =>
      refine ⟨by simp [Client.request, h1, hd, h3], by simp [Client.request, h1, hd, h3], ?_⟩
      intro sub hsub
      simp [Client.request, h1, hd, h3] at hsub
      subst hsub
      exact ⟨hr, rfl, rfl, rfl⟩
    | ok resp =>
      refine ⟨by simp [Client.request, h1, hd, h3], by simp [Client.request, h1, hd, h3], ?_⟩
      intro sub hsub
      simp [Client.request, h1, hd, h3] at hsub
      subst hsub
      exact ⟨hr, rfl, rfl, rfl⟩

/-- C10 witness: the non-interference guarantee evaluated on a concrete
unauthenticated endpoint, with no session on one side and a concrete session
on the other. -/
theorem c10_session_noninterference_witness :
    (Client.request ⟨(), homeUrl, none⟩ okTransport epNoAuth ()).submitted
      = (Client.request ⟨(), homeUrl, some sessT⟩ okTransport epNoAuth ()).submitted ∧
    (Client.request ⟨(), homeUrl, none⟩ okTransport epNoAuth ()).result
      = (Client.request ⟨(), homeUrl, some sessT⟩ okTransport epNoAuth ()).result ∧
    ∀ sub ∈ (Client.request ⟨(), homeUrl, none⟩ okTransport epNoAuth ()).submitted,
      ∃ hr, epNoAuth.tryInto () = Except.ok hr ∧
        sub.uri = setPathQuery homeUrl hr.path hr.query ∧
        sub.uri.query = hr.query :=
  c10_session_noninterference () homeUrl none (some sessT) okTransport epNoAuth () rfl

/-- C4: every exchange submitted by dispatch has the scheme, host and port of
the Client's homeserver URL, its path is the endpoint-generated request's
path, and its query is the endpoint-generated query — extended only by the
access_token pair in the authenticated case; the homeserver URL's own path
and query never appear. -/
theorem c4_url_rebasing {C Req Resp : Type} (c : Client C)
    (transport : C → SubmittedRequest → Except Error HttpResponse)
    (E : Endpoint Req Resp) (req : Req) (hr : HttpRequest)
    (hT : E.tryInto req = Except.ok hr) :
    ∀ sub ∈ (c.request transport E req).submitted,
      sub.uri.scheme = c.homeserver_url.scheme ∧
      sub.uri.host = c.homeserver_url.host ∧
      sub.uri.port = c.homeserver_url.port ∧
      sub.uri.path = hr.path ∧
      (sub.uri.query = hr.query ∨
        ∃ s, c.session = some s ∧
          sub.uri.query = hr.query ++ [("access_token", s.access_token)]) := by
  cases h2 : authDecorate E.requires_authentication c.session
      (setPathQuery c.homeserver_url hr.path hr.query) with
  | error e =>
    intro sub hsub
    simp [Client.request, hT, h2] at hsub
  | ok u =>
    have hu : u = setPathQuery c.homeserver_url hr.path hr.query ∨
        ∃ s, c.session = some s ∧
          u = appendPair (setPathQuery c.homeserver_url hr.path hr.query)
            "access_token" s.access_token := by
      rcases authDecorate_ok h2 with ⟨-, h⟩ | ⟨-, sess, hs, h⟩
      · exact Or.inl h
      · exact Or.inr ⟨sess, hs, h⟩
    intro sub hsub
    have hsu : sub.uri = u := by
      cases h3 : transport c.hyper ⟨u, hr.method, hr.body⟩ with
      | error e =>
        simp [Client.request, hT, h2, h3] at hsub
        rw [hsub]
      | ok resp =>
        simp [Client.request, hT, h2, h3] at hsub
        rw [hsub]
    rcases hu with h | ⟨s, hs, h⟩
    · rw [hsu, h]
      exact ⟨rfl, rfl, rfl, rfl, Or.inl rfl⟩
    · rw [hsu, h]
      exact ⟨rfl, rfl, rfl, rfl, Or.inr ⟨s, hs, rfl⟩⟩

/-- The exchange that dispatching epAuth from clientT submits: homeserver
scheme, host and port, the endpoint path, and the appended token pair. -/
def subAuthT : SubmittedRequest :=
  ⟨⟨"https", "matrix.org", some 8448, "/r0/sync", [("access_token", "T")]⟩, "GET", ""⟩

/-- C4 witness: the rebasing guarantee evaluated on a concrete authenticated
endpoint, a homeserver URL with a base path and query of its own, and the
single exchange that dispatch submits. -/
theorem c4_url_rebasing_witness :
    subAuthT.uri.scheme = clientT.homeserver_url.scheme ∧
    subAuthT.uri.host = clientT.homeserver_url.host ∧
    subAuthT.uri.port = clientT.homeserver_url.port ∧
    subAuthT.uri.path = (⟨"GET", "/r0/sync", [], ""⟩ : HttpRequest).path ∧
    (subAuthT.uri.query = (⟨"GET", "/r0/sync", [], ""⟩ : HttpRequest).query ∨
      ∃ s, clientT.session = some s ∧
        subAuthT.uri.query
          = (⟨"GET", "/r0/sync", [], ""⟩ : HttpRequest).query
            ++ [("access_token", s.access_token)]) :=
  c4_url_rebasing clientT okTransport epAuth () ⟨"GET", "/r0/sync", [], ""⟩ rfl
    subAuthT (by decide)

/-- C2 counterexample: an authenticated dispatch of an endpoint whose
generated query already carries an access_token pair. The url crate's
append_pair appends instead of replacing, so the submitted URL carries two
access_token query parameters, not exactly one as the claim demands. -/
theorem c2_cex :
    epAuthTok.requires_authentication = true ∧
    clientT.session = some sessT ∧
    ((clientT.request okTransport epAuthTok ()).submitted.map fun sub => sub.uri.query)
      = [[("access_token", "old"), ("access_token", "T")]] ∧
    ((clientT.request okTransport epAuthTok ()).submitted.map
        fun sub => accessTokenCount sub.uri.query)
      = [2] := by
  refine ⟨rfl, rfl, ?_, ?_⟩ <;> decide

/-- C2 (amended): on an authenticated dispatch the access_token pair holding
the session's token at dispatch start is appended as the last query parameter
of the submitted URL, so the URL carries one more access_token parameter than
the endpoint-generated query did — exactly one precisely when the
endpoint-generated query carried none. -/
theorem c2_token_append {C Req Resp : Type} (c : Client C)
    (transport : C → SubmittedRequest → Except Error HttpResponse)
    (E : Endpoint Req Resp) (req : Req) (s : Session) (hr : HttpRequest)
    (hA : E.requires_authentication = true) (hS : c.session = some s)
    (hT : E.tryInto req = Except.ok hr) :
    ((c.request transport E req).submitted.map fun sub => sub.uri.query)
      = [hr.query ++ [("access_token", s.access_token)]] ∧
    accessTokenCount (hr.query ++ [("access_token", s.access_token)])
      = accessTokenCount hr.query + 1 ∧
    (accessTokenCount hr.query = 0 →
      accessTokenCount (hr.query ++ [("access_token", s.access_token)]) = 1) := by
  have hcnt : accessTokenCount (hr.query ++ [("access_token", s.access_token)])
      = accessTokenCount hr.query + 1 := by
    simp [accessTokenCount, List.countP_append, List.countP_cons]
  refine ⟨?_, hcnt, fun h0 => by rw [hcnt, h0]⟩
  have h2 : authDecorate E.requires_authentication c.session
      (setPathQuery c.homeserver_url hr.path hr.query)
      = Except.ok (appendPair (setPathQuery c.homeserver_url hr.path hr.query)
          "access_token" s.access_token) := by
    simp [authDecorate, hA, hS]
  cases h3 : transport c.hyper
      ⟨appendPair (setPathQuery c.homeserver_url hr.path hr.query)
        "access_token" s.access_token, hr.method, hr.body⟩ with
  | error e =>
    simp [Client.request, hT, h2, h3]
    simp [appendPair, setPathQuery]
  | ok resp =>
    simp [Client.request, hT, h2, h3]
    simp [appendPair, setPathQuery]

/-- C2 witness: the amended guarantee evaluated on a concrete authenticated
endpoint whose query carries no token, where the submitted URL carries
exactly one access_token pair with the session's token. -/
theorem c2_token_append_witness :
    ((clientT.request okTransport epAuth ()).submitted.map fun sub => sub.uri.query)
      = [[] ++ [("access_token", "T")]] ∧
    accessTokenCount ([] ++ [("access_token", "T")])
      = accessTokenCount [] + 1 ∧
    (accessTokenCount ([] : List (String × String)) = 0 →
      accessTokenCount ([] ++ [("access_token", "T")]) = 1) :=
  c2_token_append clientT okTransport epAuth () sessT ⟨"GET", "/r0/sync", [], ""⟩
    rfl rfl rfl

/-- A sync dispatch oracle that always succeeds with cursor b1. -/
def okCall : SyncRequest → Except Error SyncResponse :=
  fun _ => Except.ok ⟨"b1", ""⟩

/-- A sync dispatch oracle that always fails with a transport error. -/
def errCall : SyncRequest → Except Error SyncResponse :=
  fun _ => Except.error (Error.transport "io")

/-- C3: in the stream built by Client::sync, the request of pull 0 carries
the caller-provided initial cursor (absent if it was absent), and whenever
pull n yields a response, the request issued on pull n+1 carries that
response's next_batch as its since cursor. -/
theorem c3_cursor_threading (call : SyncRequest → Except Error SyncResponse)
    (filter : Option Filter) (b : Bool) (init : Option String) (n : Nat)
    (res : SyncResponse)
    (h : (syncPullAt call filter (presenceArg b) init n).2.1 = PullOutcome.item res) :
    (syncPullAt call filter (presenceArg b) init (n + 1)).1
      = some (mkSyncRequest filter (presenceArg b) (some res.next_batch)) ∧
    (syncPullAt call filter (presenceArg b) init 0).1
      = some (mkSyncRequest filter (presenceArg b) init) := by
  refine ⟨?_, rfl⟩
  have hstep : syncStateAt call filter (presenceArg b) init (n + 1)
      = UnfoldState.ready (some res.next_batch) := by
    show (syncPoll call filter (presenceArg b)
        (syncStateAt call filter (presenceArg b) init n)).2.2 = _
    unfold syncPullAt at h
    cases hst : syncStateAt call filter (presenceArg b) init n with
    | empty =>
      rw [hst] at h
      simp [syncPoll] at h
    | ready s =>
      rw [hst] at h
      cases hc : call (mkSyncRequest filter (presenceArg b) s) with
      | error e => simp [syncPoll, hc] at h
      | ok r =>
        simp [syncPoll, hc] at h
        simp [syncPoll, hc, h]
  unfold syncPullAt
  rw [hstep]
  rfl

/-- C3 witness: two successful pulls of a concrete stream with no initial
cursor: pull 0 sends no since, pull 1 sends the b1 cursor of response 0. -/
theorem c3_cursor_threading_witness :
    (syncPullAt okCall none (presenceArg true) none 1).1
      = some (mkSyncRequest none (presenceArg true) (some "b1")) ∧
    (syncPullAt okCall none (presenceArg true) none 0).1
      = some (mkSyncRequest none (presenceArg true) none) :=
  c3_cursor_threading okCall none true none 0 ⟨"b1", ""⟩ rfl

/-- C6 counterexample: a stream whose pull 0 fails surfaces the error on that
pull, but the pull after the error does not reuse the cursor that produced
it: futures 0.1 unfold consumed the state into the failed future, so the next
poll issues no request at all and is a poll-after-completion panic. -/
theorem c6_cex :
    (syncPullAt errCall none none (some "c0") 0).1
      = some (mkSyncRequest none none (some "c0")) ∧
    (syncPullAt errCall none none (some "c0") 0).2.1
      = PullOutcome.error (Error.transport "io") ∧
    (syncPullAt errCall none none (some "c0") 1).1
      ≠ some (mkSyncRequest none none (some "c0")) ∧
    (syncPullAt errCall none none (some "c0") 1).1 = none ∧
    (syncPullAt errCall none none (some "c0") 1).2.1 = PullOutcome.panicked := by
  refine ⟨rfl, rfl, ?_, rfl, rfl⟩
  decide

/-- C6 (amended): an error on pull n is surfaced as the result of that pull,
and the failed pull never advances the cursor to a next_batch; however the
unfold state is consumed by the failed pull, so the stream is left exhausted:
pull n+1 issues no request and panics instead of retrying the old cursor. -/
theorem c6_error_poisons (call : SyncRequest → Except Error SyncResponse)
    (filter : Option Filter) (sp : Option SetPresence) (init : Option String)
    (n : Nat) (e : Error)
    (h : (syncPullAt call filter sp init n).2.1 = PullOutcome.error e) :
    (syncPullAt call filter sp init n).2.2 = UnfoldState.empty ∧
    syncStateAt call filter sp init (n + 1) = UnfoldState.empty ∧
    (syncPullAt call filter sp init (n + 1)).1 = none ∧
    (syncPullAt call filter sp init (n + 1)).2.1 = PullOutcome.panicked := by
  have h22 : (syncPullAt call filter sp init n).2.2 = UnfoldState.empty := by
    unfold syncPullAt at h ⊢
    cases hst : syncStateAt call filter sp init n with
    | empty => simp [syncPoll]
    | ready s =>
      rw [hst] at h
      cases hc : call (mkSyncRequest filter sp s) with
      | ok r => simp [syncPoll, hc] at h
      | error e2 => simp [syncPoll, hc]
  have hst1 : syncStateAt call filter sp init (n + 1) = UnfoldState.empty := h22
  refine ⟨h22, hst1, ?_, ?_⟩ <;> (unfold syncPullAt; rw [hst1]) <;> rfl

/-- C6 witness: the amended behaviour evaluated on a concrete stream whose
pull 0 fails. -/
theorem c6_error_poisons_witness :
    (syncPullAt errCall none none (some "s0") 0).2.2 = UnfoldState.empty ∧
    syncStateAt errCall none none (some "s0") 1 = UnfoldState.empty ∧
    (syncPullAt errCall none none (some "s0") 1).1 = none ∧
    (syncPullAt errCall none none (some "s0") 1).2.1 = PullOutcome.panicked :=
  c6_error_poisons errCall none none (some "s0") 0 (Error.transport "io") rfl

/-- C7: every request issued by a stream built with set_presence true carries
no presence override, and every request issued by a stream built with
set_presence false carries the explicit Offline presence. -/
theorem c7_presence (call : SyncRequest → Except Error SyncResponse)
    (filter : Option Filter) (b : Bool) (init : Option String) (n : Nat)
    (req : SyncRequest)
    (h : (syncPullAt call filter (presenceArg b) init n).1 = some req) :
    (b = true → req.set_presence = none) ∧
    (b = false → req.set_presence = some SetPresence.offline) := by
  have hsp : req.set_presence = presenceArg b := by
    unfold syncPullAt at h
    cases hst : syncStateAt call filter (presenceArg b) init n with
    | empty =>
      rw [hst] at h
      simp [syncPoll] at h
    | ready s =>
      rw [hst] at h
      have hreq : mkSyncRequest filter (presenceArg b) s = req := by
        simpa [syncPoll] using h
      rw [← hreq]
      rfl
  constructor
  · intro hb
    rw [hsp, hb]
    rfl
  · intro hb
    rw [hsp, hb]
    rfl

/-- C7 witness: the presence guarantee evaluated on a concrete stream built
with set_presence true and the request its pull 0 issues. -/
theorem c7_presence_witness :
    (true = true → (mkSyncRequest none (presenceArg true) none).set_presence = none) ∧
    (true = false →
      (mkSyncRequest none (presenceArg true) none).set_presence
        = some SetPresence.offline) :=
  c7_presence okCall none true none 0 (mkSyncRequest none (presenceArg true) none) rfl

/-- C5: each auth flow stores, on success, exactly the response's
access_token, user_id and device_id triple as the client's new session
(leaving every other field of the client unchanged), and on failure returns
the dispatch error with the client — its session included — exactly as it
was before the call. Stated for the three flows over arbitrary dispatch
oracles abstracting login::call and register::call. -/
theorem c5_auth_flows {C : Type} (c : Client C)
    (callL : Client C → LoginRequest → Except Error LoginResponse)
    (callG callU : Client C → RegisterRequest → Except Error RegisterResponse)
    (user password : String) (device_id username : Option String) :
    (∀ r, callL c ⟨none, LoginType.password, none, device_id, password, user⟩
        = Except.ok r →
      c.log_in callL user password device_id
        = ⟨Except.ok (),
            { c with session := some ⟨r.access_token, r.user_id, r.device_id⟩ }⟩) ∧
    (∀ e, callL c ⟨none, LoginType.password, none, device_id, password, user⟩
        = Except.error e →
      c.log_in callL user password device_id = ⟨Except.error e, c⟩) ∧
    (∀ r, callG c ⟨none, none, none, none, some RegistrationKind.guest, none, none⟩
        = Except.ok r →
      c.register_guest callG
        = ⟨Except.ok (),
            { c with session := some ⟨r.access_token, r.user_id, r.device_id⟩ }⟩) ∧
    (∀ e, callG c ⟨none, none, none, none, some RegistrationKind.guest, none, none⟩
        = Except.error e →
      c.register_guest callG = ⟨Except.error e, c⟩) ∧
    (∀ r, callU c ⟨none, none, none, none, some RegistrationKind.user, some password,
          username⟩ = Except.ok r →
      c.register_user callU username password
        = ⟨Except.ok (),
            { c with session := some ⟨r.access_token, r.user_id, r.device_id⟩ }⟩) ∧
    (∀ e, callU c ⟨none, none, none, none, some RegistrationKind.user, some password,
          username⟩ = Except.error e →
      c.register_user callU username password = ⟨Except.error e, c⟩) := by
  refine ⟨?_, ?_, ?_, ?_, ?_, ?_⟩ <;> intro x hx <;>
    simp [Client.log_in, Client.register_guest, Client.register_user, hx, Except.map]

/-- A login dispatch oracle that always succeeds with the token T triple. -/
def callLok : Client Unit → LoginRequest → Except Error LoginResponse :=
  fun _ _ => Except.ok ⟨"T", uidAlice, "D"⟩

/-- A register dispatch oracle that always fails with an endpoint decode
error. -/
def callRerr : Client Unit → RegisterRequest → Except Error RegisterResponse :=
  fun _ _ => Except.error (Error.endpointDecode "status 401")

/-- C5 witness: a concrete successful login stores the response triple as the
session, and a concrete failed user registration returns the error with the
client unchanged. -/
theorem c5_auth_flows_witness :
    clientNoSession.log_in callLok "alice" "hunter2" none
      = ⟨Except.ok (), { clientNoSession with session := some ⟨"T", uidAlice, "D"⟩ }⟩ ∧
    clientNoSession.register_user callRerr (some "bob") "pw"
      = ⟨Except.error (Error.endpointDecode "status 401"), clientNoSession⟩ :=
  ⟨(c5_auth_flows clientNoSession callLok callRerr callRerr
        "alice" "hunter2" none (some "bob")).1 ⟨"T", uidAlice, "D"⟩ rfl,
    (c5_auth_flows clientNoSession callLok callRerr callRerr
        "alice" "pw" none (some "bob")).2.2.2.2.2
      (Error.endpointDecode "status 401") rfl⟩

end RumaClient
